import Mathlib

/-!
# Broker bootstrap shim (`Sources/mosquitto_cxx/shim_mosquitto_main.c`)

A shallow embedding of the file-scope state and the functions of
`shim_mosquitto_main.c`, followed by theorems about them.

Conventions of the embedding.

* C `int`, `pid_t` and `mosq_sock_t` values are `Int`; no function of the file
  does arithmetic on them, so no wrap-around is involved.
* A `char *` is an `Option String` (`none` is `NULL`).
* Everything the operating system decides (the result of `fork`, whether a user
  name resolves, whether a bind would succeed, ...) is a field of `World`, which
  the functions receive read-only.
* Everything the process can change is a field of `Process`: the file-scope
  variables, the process credentials, and two logs. `events` records the library
  and system calls that were executed, in order; `calls` records, in order, the
  functions of this file that were entered.
* `exit` ends the process: a function that can reach `exit` returns a `Control`.
-/

namespace Mosquitto

/-! ## Types -/

/-- Modelled from the spec: the constant `MOSQ_ERR_SUCCESS` is declared in
`mosquitto.h`, which is not part of the sources at hand. Its value is the one the
comment above `drop_privileges` gives for success ("Returns 0 on success"). -/
def MOSQ_ERR_SUCCESS : Int := 0

/-- The `enum mosquitto_protocol` of the file. -/
inductive mosquitto_protocol where
  | mp_mqtt
  | mp_mqttsn
  | mp_websockets
  deriving DecidableEq, Repr

/-- The `mosquitto__listener` structure of the file (`mosquitto__listener_shim`):
its scalar and string members, the TLS file names among the `WITH_TLS` members and
the `WITH_UNIX_SOCKETS` member. The members that point into other subsystems
(`ssl_ctx`, `ws_context`, `security_options`) are not represented. -/
structure mosquitto__listener where
  port : Nat
  host : Option String
  bind_interface : Option String
  max_connections : Int
  mount_point : Option String
  socks : List Int
  sock_count : Int
  client_count : Int
  protocol : mosquitto_protocol
  socket_domain : Int
  use_username_as_clientid : Bool
  max_qos : Nat
  max_topic_alias : Nat
  cafile : Option String
  certfile : Option String
  keyfile : Option String
  require_certificate : Bool
  unix_socket_path : Option String
  deriving DecidableEq, Repr

/-- Modelled from the spec: `struct mosquitto__config` is declared in
`mosquitto_broker.h`, which is not part of the sources at hand. The members are
the ones the spec lists as configuration input: the ordered listener list, the
global `user` (the privilege-drop target), the `pid_file` path and the `daemon`
boolean. -/
structure mosquitto__config where
  listeners : List mosquitto__listener
  user : Option String
  pid_file : Option String
  daemon : Bool
  deriving DecidableEq, Repr

/-- Modelled from the spec: `struct mosquitto__listener_sock` is declared in
`mosquitto_broker.h`, which is not part of the sources at hand. An entry of the
listening socket table holds one open socket handle. -/
structure mosquitto__listener_sock where
  sock : Int
  deriving DecidableEq, Repr

/-- The three standard streams that `mosquitto__daemonise` redirects. -/
inductive Stream where
  | stdin
  | stdout
  | stderr
  deriving DecidableEq, Repr

/-- A record of the password database, as `getpwnam` returns it. -/
structure passwd where
  pw_uid : Nat
  pw_gid : Nat
  deriving DecidableEq, Repr

/-- A library or system call that was executed. -/
inductive Event where
  | fork
  | setsid
  | freopen (path : String) (mode : String) (stream : Stream)
  | printf (text : String)
  | exit (status : Int)
  | getpwnam (name : String)
  | initgroups (name : String) (gid : Nat)
  | setgid (gid : Nat)
  | setuid (uid : Nat)
  | bind (port : Nat)
  | close (sock : Int)
  deriving DecidableEq, Repr

/-- The functions of the file. -/
inductive Fn where
  | drop_privileges
  | mosquitto__daemonise
  | listener__set_defaults
  | listeners__reload_all_certificates
  | listeners__start_single_mqtt
  | listeners__add_websockets
  | listeners__add_local
  | listeners__start_local_only
  | listeners__start
  | listeners__stop
  | signal__setup
  | pid__write
  | mosquitto_main
  deriving DecidableEq, Repr

/-- What the operating system decides. -/
structure World where
  /-- the value `fork()` returns -/
  fork_result : Int
  /-- the value `setsid()` returns -/
  setsid_result : Int
  /-- whether `freopen("/dev/null", _, stream)` returns a non-null pointer -/
  freopen_ok : Stream → Bool
  /-- the text of `strerror(errno)` -/
  strerror_errno : String
  /-- the password database -/
  getpwnam : String → Option passwd
  /-- whether `initgroups`, `setgid`, `setuid` would succeed -/
  initgroups_ok : Bool
  setgid_ok : Bool
  setuid_ok : Bool
  /-- whether binding a listener would succeed -/
  bind_ok : mosquitto__listener → Bool
  /-- whether loading the certificate of a listener would succeed -/
  cert_load_ok : mosquitto__listener → Bool

/-- What the process can change: the file-scope variables `listensock`,
`listensock_count`, `listensock_index`, `flag_reload`, `flag_tree_print`, `run`
and the `config` member of `db`; the credentials of the process; the two logs. -/
structure Process where
  listensock : Option (List mosquitto__listener_sock)
  listensock_count : Int
  listensock_index : Int
  flag_reload : Bool
  flag_tree_print : Bool
  run : Int
  db_config : Option mosquitto__config
  euid : Nat
  egid : Nat
  groups : List Nat
  events : List Event
  calls : List Fn
  deriving DecidableEq, Repr

/-- How a function that can reach `exit` ends. -/
inductive Control where
  | returned
  | exited (status : Int)
  deriving DecidableEq, Repr

/-- The branch of `#ifndef WIN32` that is compiled. -/
inductive Platform where
  | posix
  | win32
  deriving DecidableEq, Repr

/-! ## State helpers -/

/-- The state at process start: the initialisers of the file-scope variables
(`listensock = NULL`, `listensock_count = 0`, `listensock_index = 0`,
`flag_reload = false`, `flag_tree_print = false`, `run` zero-initialised), with the
credentials the process was started with. -/
def Process.start (euid egid : Nat) (groups : List Nat) : Process :=
  { listensock := none
    listensock_count := 0
    listensock_index := 0
    flag_reload := false
    flag_tree_print := false
    run := 0
    db_config := none
    euid := euid
    egid := egid
    groups := groups
    events := []
    calls := [] }

/-- Record that a function of the file was entered. -/
def Process.enter (p : Process) (f : Fn) : Process :=
  { p with calls := p.calls ++ [f] }

/-- Record executed library or system calls. -/
def Process.emit (p : Process) (es : List Event) : Process :=
  { p with events := p.events ++ es }

/-- The listening socket table: the three variables of lines 187-189. -/
def Process.table (p : Process) :
    Option (List mosquitto__listener_sock) × Int × Int :=
  (p.listensock, p.listensock_count, p.listensock_index)

/-- The socket handles held open by the table: the first `listensock_count`
entries of `listensock`. -/
def Process.open_sockets (p : Process) : List Int :=
  match p.listensock with
  | none => []
  | some a => (a.take p.listensock_count.toNat).map (fun e => e.sock)

/-! ## The functions of the file -/

/-- `int drop_privileges(struct mosquitto__config *config)`, lines 211-214. -/
def drop_privileges (_w : World) (_config : mosquitto__config) (p : Process) :
    Int × Process :=
  (MOSQ_ERR_SUCCESS, p.enter Fn.drop_privileges)

/-- `static void mosquitto__daemonise(void)`, lines 216-252. -/
def mosquitto__daemonise (pf : Platform) (w : World) (p : Process) :
    Control × Process :=
  let p := p.enter Fn.mosquitto__daemonise
  match pf with
  | Platform.posix =>
    let pid := w.fork_result
    let p := p.emit [Event.fork]
    if pid < 0 then
      let err := w.strerror_errno
      (Control.exited 1,
        p.emit [Event.printf ("Error in fork: " ++ err ++ "\n"), Event.exit 1])
    else if pid > 0 then
      (Control.exited 0, p.emit [Event.exit 0])
    else
      let p := p.emit [Event.setsid]
      if w.setsid_result < 0 then
        let err := w.strerror_errno
        (Control.exited 1,
          p.emit [Event.printf ("Error in setsid: " ++ err ++ "\n"), Event.exit 1])
      else
        let p := p.emit [Event.freopen "/dev/null" "r" Stream.stdin]
        if !w.freopen_ok Stream.stdin then
          (Control.exited 1,
            p.emit [Event.printf ("Error whilst daemonising (" ++ "stdin" ++ "): "
              ++ w.strerror_errno ++ "\n"), Event.exit 1])
        else
          let p := p.emit [Event.freopen "/dev/null" "w" Stream.stdout]
          if !w.freopen_ok Stream.stdout then
            (Control.exited 1,
              p.emit [Event.printf ("Error whilst daemonising (" ++ "stdout" ++ "): "
                ++ w.strerror_errno ++ "\n"), Event.exit 1])
          else
            let p := p.emit [Event.freopen "/dev/null" "w" Stream.stderr]
            if !w.freopen_ok Stream.stderr then
              (Control.exited 1,
                p.emit [Event.printf ("Error whilst daemonising (" ++ "stderr" ++ "): "
                  ++ w.strerror_errno ++ "\n"), Event.exit 1])
            else
              (Control.returned, p)
  | Platform.win32 =>
    (Control.returned,
      p.emit [Event.printf "Warning: Can't start in daemon mode in Windows.\n"])

/-- `void listener__set_defaults(struct mosquitto__listener *listener)`,
lines 255-256. -/
def listener__set_defaults (_w : World) (_listener : mosquitto__listener)
    (p : Process) : Process :=
  p.enter Fn.listener__set_defaults

/-- `void listeners__reload_all_certificates(void)`, lines 259-260. -/
def listeners__reload_all_certificates (_w : World) (p : Process) : Process :=
  p.enter Fn.listeners__reload_all_certificates

/-- `static int listeners__start_single_mqtt(struct mosquitto__listener *listener)`,
lines 263-266. -/
def listeners__start_single_mqtt (_w : World) (_listener : mosquitto__listener)
    (p : Process) : Int × Process :=
  (MOSQ_ERR_SUCCESS, p.enter Fn.listeners__start_single_mqtt)

/-- `void listeners__add_websockets(struct lws_context *ws_context, mosq_sock_t fd)`,
lines 269-272, compiled under `WITH_WEBSOCKETS`. The `struct lws_context *` is
represented by its address. -/
def listeners__add_websockets (_w : World) (_ws_context : Option Nat) (_fd : Int)
    (p : Process) : Process :=
  p.enter Fn.listeners__add_websockets

/-- `static int listeners__add_local(const char *host, uint16_t port)`,
lines 274-277. -/
def listeners__add_local (_w : World) (_host : Option String) (_port : Nat)
    (p : Process) : Int × Process :=
  (MOSQ_ERR_SUCCESS, p.enter Fn.listeners__add_local)

/-- `static int listeners__start_local_only(void)`, lines 279-282. -/
def listeners__start_local_only (_w : World) (p : Process) : Int × Process :=
  (MOSQ_ERR_SUCCESS, p.enter Fn.listeners__start_local_only)

/-- `static int listeners__start(void)`, lines 285-288. -/
def listeners__start (_w : World) (p : Process) : Int × Process :=
  (MOSQ_ERR_SUCCESS, p.enter Fn.listeners__start)

/-- `static void listeners__stop(void)`, lines 291-292. -/
def listeners__stop (_w : World) (p : Process) : Process :=
  p.enter Fn.listeners__stop

/-- `static void signal__setup(void)`, lines 295-296. -/
def signal__setup (_w : World) (p : Process) : Process :=
  p.enter Fn.signal__setup

/-- `static int pid__write(void)`, lines 299-302. -/
def pid__write (_w : World) (p : Process) : Int × Process :=
  (MOSQ_ERR_SUCCESS, p.enter Fn.pid__write)

/-- `int mosquitto_main(int argc, char *argv[])`, lines 305-308. -/
def mosquitto_main (_w : World) (_argc : Int) (_argv : List String)
    (p : Process) : Int × Process :=
  (MOSQ_ERR_SUCCESS, p.enter Fn.mosquitto_main)

/-! ## Sequences of calls -/

/-- A call of one of the thirteen functions of the file, with its arguments. -/
inductive Op where
  | drop_privileges (config : mosquitto__config)
  | mosquitto__daemonise (pf : Platform)
  | listener__set_defaults (listener : mosquitto__listener)
  | listeners__reload_all_certificates
  | listeners__start_single_mqtt (listener : mosquitto__listener)
  | listeners__add_websockets (ws_context : Option Nat) (fd : Int)
  | listeners__add_local (host : Option String) (port : Nat)
  | listeners__start_local_only
  | listeners__start
  | listeners__stop
  | signal__setup
  | pid__write
  | mosquitto_main (argc : Int) (argv : List String)
  deriving DecidableEq, Repr

/-- The state after one call. -/
def Op.run (w : World) (o : Op) (p : Process) : Process :=
  match o with
  | Op.drop_privileges config => (Mosquitto.drop_privileges w config p).2
  | Op.mosquitto__daemonise pf => (Mosquitto.mosquitto__daemonise pf w p).2
  | Op.listener__set_defaults l => Mosquitto.listener__set_defaults w l p
  | Op.listeners__reload_all_certificates =>
    Mosquitto.listeners__reload_all_certificates w p
  | Op.listeners__start_single_mqtt l => (Mosquitto.listeners__start_single_mqtt w l p).2
  | Op.listeners__add_websockets ws_context fd =>
    Mosquitto.listeners__add_websockets w ws_context fd p
  | Op.listeners__add_local host port => (Mosquitto.listeners__add_local w host port p).2
  | Op.listeners__start_local_only => (Mosquitto.listeners__start_local_only w p).2
  | Op.listeners__start => (Mosquitto.listeners__start w p).2
  | Op.listeners__stop => Mosquitto.listeners__stop w p
  | Op.signal__setup => Mosquitto.signal__setup w p
  | Op.pid__write => (Mosquitto.pid__write w p).2
  | Op.mosquitto_main argc argv => (Mosquitto.mosquitto_main w argc argv p).2

/-- A plain MQTT listener on all interfaces at the given port. -/
def listener_on (port : Nat) : mosquitto__listener :=
  { port := port
    host := none
    bind_interface := none
    max_connections := -1
    mount_point := none
    socks := []
    sock_count := 0
    client_count := 0
    protocol := mosquitto_protocol.mp_mqtt
    socket_domain := 0
    use_username_as_clientid := false
    max_qos := 2
    max_topic_alias := 10
    cafile := none
    certfile := none
    keyfile := none
    require_certificate := false
    unix_socket_path := none }

/-- A configuration with listeners on ports 1883 and 8883 and the given user. -/
def config_for (user : Option String) : mosquitto__config :=
  { listeners := [listener_on 1883, listener_on 8883]
    user := user
    pid_file := none
    daemon := false }

/-- A world in which every call succeeds: `fork` returns 0 (the child), the
password database knows `root` and `mosquitto`, every bind and every certificate
load succeeds. -/
def world_ok : World :=
  { fork_result := 0
    setsid_result := 1
    freopen_ok := fun _ => true
    strerror_errno := "Operation not permitted"
    getpwnam := fun name =>
      if name = "root" then some { pw_uid := 0, pw_gid := 0 }
      else if name = "mosquitto" then some { pw_uid := 1883, pw_gid := 1883 }
      else none
    initgroups_ok := true
    setgid_ok := true
    setuid_ok := true
    bind_ok := fun _ => true
    cert_load_ok := fun _ => true }

/-- As `world_ok`, but port 8883 cannot be bound. -/
def world_port_taken : World :=
  { world_ok with bind_ok := fun l => l.port != 8883 }

/-- As `world_ok`, but `setgid` fails. -/
def world_setgid_fails : World :=
  { world_ok with setgid_ok := false }

/-- As `world_ok`, but `fork` returns the pid of a child: this is the parent. -/
def world_parent : World :=
  { world_ok with fork_result := 4242 }

/-- As `world_ok`, but `setsid` fails. -/
def world_setsid_fails : World :=
  { world_ok with setsid_result := -1 }

/-- The process at start, running as root, with the given configuration. -/
def root_process (config : mosquitto__config) : Process :=
  { Process.start 0 0 [0] with db_config := some config }

/-! ## Frame lemmas -/

theorem emit_table (p : Process) (es : List Event) : (p.emit es).table = p.table := rfl

/-- C1, as stated, fails: with listeners configured on ports 1883 and 8883 and
port 8883 impossible to bind, `listeners__start` does not fail; it returns
`MOSQ_ERR_SUCCESS`. -/
theorem listeners__start_succeeds_when_bind_fails :
    ¬ ((∃ l ∈ (config_for none).listeners, world_port_taken.bind_ok l = false) →
        (listeners__start world_port_taken (root_process (config_for none))).1
            ≠ MOSQ_ERR_SUCCESS ∧
          (listeners__start world_port_taken
            (root_process (config_for none))).2.open_sockets = []) := by
  intro h
  have hfail : ∃ l ∈ (config_for none).listeners, world_port_taken.bind_ok l = false :=
    ⟨listener_on 8883, by simp [config_for], by decide⟩
  exact (h hfail).1 rfl

/-- C1, amended: `listeners__start` attempts no bind and never fails. For every
world (whatever listener could or could not be bound) and every process state it
returns `MOSQ_ERR_SUCCESS`, executes no library or system call and leaves the
listening socket table and its open sockets as they were; called at process start
it leaves `listensock = NULL` and `listensock_count = 0`, zero open sockets. -/
theorem listeners__start_binds_nothing (w : World) (p : Process)
    (u g : Nat) (gs : List Nat) :
    (listeners__start w p).1 = MOSQ_ERR_SUCCESS ∧
      (listeners__start w p).2.events = p.events ∧
      (listeners__start w p).2.table = p.table ∧
      (listeners__start w p).2.open_sockets = p.open_sockets ∧
      (listeners__start w (Process.start u g gs)).2.listensock = none ∧
      (listeners__start w (Process.start u g gs)).2.listensock_count = 0 ∧
      (listeners__start w (Process.start u g gs)).2.open_sockets = [] :=
  ⟨rfl, rfl, rfl, rfl, rfl, rfl, rfl⟩

/-- C7: `listeners__reload_all_certificates` leaves `run`, `flag_reload` and the
listening socket table (`listensock`, `listensock_count`, `listensock_index`)
unchanged and executes no call (so it closes no socket and never exits), in every
process state and every world, whether or not a certificate load would fail. -/
theorem listeners__reload_all_certificates_frame (w : World) (p : Process) :
    (listeners__reload_all_certificates w p).run = p.run ∧
      (listeners__reload_all_certificates w p).flag_reload = p.flag_reload ∧
      (listeners__reload_all_certificates w p).listensock = p.listensock ∧
      (listeners__reload_all_certificates w p).listensock_count = p.listensock_count ∧
      (listeners__reload_all_certificates w p).listensock_index = p.listensock_index ∧
      (listeners__reload_all_certificates w p).open_sockets = p.open_sockets ∧
      (listeners__reload_all_certificates w p).events = p.events :=
  ⟨rfl, rfl, rfl, rfl, rfl, rfl, rfl⟩

/-! ## Privilege dropper -/

/-- C2, the code at the failing input: the process runs as root, `config->user` is
`nosuchuser`, which the password database does not know; `drop_privileges` looks
nothing up and returns `MOSQ_ERR_SUCCESS` (0), not 1. -/
theorem drop_privileges_unknown_user_succeeds :
    (config_for (some "nosuchuser")).user = some "nosuchuser" ∧
      world_ok.getpwnam "nosuchuser" = none ∧
      (drop_privileges world_ok (config_for (some "nosuchuser"))
        (root_process (config_for (some "nosuchuser")))).1 = MOSQ_ERR_SUCCESS ∧
      (drop_privileges world_ok (config_for (some "nosuchuser"))
        (root_process (config_for (some "nosuchuser")))).1 ≠ 1 ∧
      world_setgid_fails.setgid_ok = false ∧
      (drop_privileges world_setgid_fails (config_for (some "mosquitto"))
        (root_process (config_for (some "mosquitto")))).1 = MOSQ_ERR_SUCCESS := by
  refine ⟨rfl, by decide, rfl, by decide, rfl, rfl⟩

/-- C3, the code at the failing input: the process runs with effective uid 0 and
`config->user` is `mosquitto`, a known unprivileged user; `drop_privileges`
returns `MOSQ_ERR_SUCCESS` having executed no call (no `initgroups`, `setgid` or
`setuid`), and the effective uid on return is still 0. -/
theorem drop_privileges_keeps_root :
    (root_process (config_for (some "mosquitto"))).euid = 0 ∧
      world_ok.getpwnam "mosquitto" = some { pw_uid := 1883, pw_gid := 1883 } ∧
      (drop_privileges world_ok (config_for (some "mosquitto"))
        (root_process (config_for (some "mosquitto")))).1 = MOSQ_ERR_SUCCESS ∧
      (drop_privileges world_ok (config_for (some "mosquitto"))
        (root_process (config_for (some "mosquitto")))).2.events = [] ∧
      (drop_privileges world_ok (config_for (some "mosquitto"))
        (root_process (config_for (some "mosquitto")))).2.euid = 0 := by
  refine ⟨rfl, by decide, rfl, rfl, rfl⟩

/-- C6: for every configuration whose `user` is `root`, in every world and every
process state, `drop_privileges` returns `MOSQ_ERR_SUCCESS`. -/
theorem drop_privileges_root_accepted (w : World) (config : mosquitto__config)
    (p : Process) (_h : config.user = some "root") :
    (drop_privileges w config p).1 = MOSQ_ERR_SUCCESS :=
  rfl

/-- The theorem for C6 at a configuration with `user = "root"`, process running
as root. -/
theorem drop_privileges_root_accepted_witness :
    (config_for (some "root")).user = some "root" ∧
      (drop_privileges world_ok (config_for (some "root"))
        (root_process (config_for (some "root")))).1 = MOSQ_ERR_SUCCESS :=
  ⟨rfl, drop_privileges_root_accepted world_ok (config_for (some "root"))
    (root_process (config_for (some "root"))) rfl⟩

/-! ## Daemoniser -/

/-- The result of the POSIX branch as one decision list. -/
theorem daemonise_posix_control (w : World) (p : Process) :
    (mosquitto__daemonise Platform.posix w p).1 =
      if w.fork_result < 0 then Control.exited 1
      else if w.fork_result > 0 then Control.exited 0
      else if w.setsid_result < 0 then Control.exited 1
      else if w.freopen_ok Stream.stdin = false then Control.exited 1
      else if w.freopen_ok Stream.stdout = false then Control.exited 1
      else if w.freopen_ok Stream.stderr = false then Control.exited 1
      else Control.returned := by
  simp only [mosquitto__daemonise]
  split_ifs <;> simp_all

/-- The calls executed by the POSIX branch as one decision list. -/
theorem daemonise_posix_events (w : World) (p : Process) :
    (mosquitto__daemonise Platform.posix w p).2.events = p.events ++
      (if w.fork_result < 0 then
        [Event.fork, Event.printf ("Error in fork: " ++ w.strerror_errno ++ "\n"),
          Event.exit 1]
      else if w.fork_result > 0 then [Event.fork, Event.exit 0]
      else if w.setsid_result < 0 then
        [Event.fork, Event.setsid,
          Event.printf ("Error in setsid: " ++ w.strerror_errno ++ "\n"), Event.exit 1]
      else if w.freopen_ok Stream.stdin = false then
        [Event.fork, Event.setsid, Event.freopen "/dev/null" "r" Stream.stdin,
          Event.printf ("Error whilst daemonising (stdin): " ++ w.strerror_errno ++ "\n"),
          Event.exit 1]
      else if w.freopen_ok Stream.stdout = false then
        [Event.fork, Event.setsid, Event.freopen "/dev/null" "r" Stream.stdin,
          Event.freopen "/dev/null" "w" Stream.stdout,
          Event.printf ("Error whilst daemonising (stdout): " ++ w.strerror_errno ++ "\n"),
          Event.exit 1]
      else if w.freopen_ok Stream.stderr = false then
        [Event.fork, Event.setsid, Event.freopen "/dev/null" "r" Stream.stdin,
          Event.freopen "/dev/null" "w" Stream.stdout,
          Event.freopen "/dev/null" "w" Stream.stderr,
          Event.printf ("Error whilst daemonising (stderr): " ++ w.strerror_errno ++ "\n"),
          Event.exit 1]
      else
        [Event.fork, Event.setsid, Event.freopen "/dev/null" "r" Stream.stdin,
          Event.freopen "/dev/null" "w" Stream.stdout,
          Event.freopen "/dev/null" "w" Stream.stderr]) := by
  simp only [mosquitto__daemonise]
  split_ifs <;> simp_all [Process.emit, Process.enter]

/-- C5: in the POSIX branch `mosquitto__daemonise` returns to its caller exactly
when `fork` returned 0 and `setsid` and the redirections of stdin, stdout and
stderr all succeeded; when `fork` returns a positive pid the process exits with
status 0 and the only calls executed are `fork` and `exit(0)`: neither `setsid`
nor any redirection is attempted. -/
theorem daemonise_returns_only_in_child (w : World) (p : Process) :
    ((mosquitto__daemonise Platform.posix w p).1 = Control.returned ↔
      (w.fork_result = 0 ∧ 0 ≤ w.setsid_result ∧ w.freopen_ok Stream.stdin = true ∧
        w.freopen_ok Stream.stdout = true ∧ w.freopen_ok Stream.stderr = true)) ∧
    (0 < w.fork_result →
      (mosquitto__daemonise Platform.posix w p).1 = Control.exited 0 ∧
      (mosquitto__daemonise Platform.posix w p).2.events =
        p.events ++ [Event.fork, Event.exit 0]) := by
  rw [daemonise_posix_control, daemonise_posix_events]
  refine ⟨?_, ?_⟩
  · split_ifs <;> simp_all <;> omega
  · intro h
    have h1 : ¬ w.fork_result < 0 := by omega
    simp [h1, h]

/-- The theorem for C5 in the parent, where `fork` returned pid 4242. -/
theorem daemonise_returns_only_in_child_witness :
    0 < world_parent.fork_result ∧
      (mosquitto__daemonise Platform.posix world_parent (Process.start 0 0 [0])).1
        = Control.exited 0 ∧
      (mosquitto__daemonise Platform.posix world_parent (Process.start 0 0 [0])).2.events
        = [Event.fork, Event.exit 0] :=
  ⟨by decide,
    (daemonise_returns_only_in_child world_parent (Process.start 0 0 [0])).2 (by decide)⟩

/-- C8: in the WIN32 branch `mosquitto__daemonise` always returns to its caller
and never exits; the only call it executes is the `printf` of the warning, so no
`fork` happens and the process stays in the foreground, with the file-scope
variables as they were. -/
theorem daemonise_win32_returns (w : World) (p : Process) :
    (mosquitto__daemonise Platform.win32 w p).1 = Control.returned ∧
      (∀ status : Int,
        (mosquitto__daemonise Platform.win32 w p).1 ≠ Control.exited status) ∧
      (mosquitto__daemonise Platform.win32 w p).2.events =
        p.events ++ [Event.printf "Warning: Can't start in daemon mode in Windows.\n"] ∧
      (mosquitto__daemonise Platform.win32 w p).2.table = p.table ∧
      (mosquitto__daemonise Platform.win32 w p).2.run = p.run ∧
      (mosquitto__daemonise Platform.win32 w p).2.flag_reload = p.flag_reload :=
  ⟨rfl, fun _ h => Control.noConfusion h, rfl, rfl, rfl, rfl⟩

/-- C9: in the POSIX branch of `mosquitto__daemonise` a negative result of `fork`,
a negative result of `setsid` in the child, or a failing redirection of stdin,
stdout or stderr ends the process with exit status 1; exit status 0 occurs exactly
when `fork` returned a positive pid; the calls run in the order fork, setsid,
stdin, stdout, stderr, the first failure is followed only by the error message and
`exit(1)`, and when nothing fails all five calls run and the function returns. -/
theorem daemonise_failures_exit_one (w : World) (p : Process) :
    (w.fork_result < 0 →
      (mosquitto__daemonise Platform.posix w p).1 = Control.exited 1 ∧
      (mosquitto__daemonise Platform.posix w p).2.events = p.events ++
        [Event.fork, Event.printf ("Error in fork: " ++ w.strerror_errno ++ "\n"),
          Event.exit 1]) ∧
    (w.fork_result = 0 → w.setsid_result < 0 →
      (mosquitto__daemonise Platform.posix w p).1 = Control.exited 1 ∧
      (mosquitto__daemonise Platform.posix w p).2.events = p.events ++
        [Event.fork, Event.setsid,
          Event.printf ("Error in setsid: " ++ w.strerror_errno ++ "\n"),
          Event.exit 1]) ∧
    (w.fork_result = 0 → 0 ≤ w.setsid_result → w.freopen_ok Stream.stdin = false →
      (mosquitto__daemonise Platform.posix w p).1 = Control.exited 1 ∧
      (mosquitto__daemonise Platform.posix w p).2.events = p.events ++
        [Event.fork, Event.setsid, Event.freopen "/dev/null" "r" Stream.stdin,
          Event.printf ("Error whilst daemonising (stdin): " ++ w.strerror_errno ++ "\n"),
          Event.exit 1]) ∧
    (w.fork_result = 0 → 0 ≤ w.setsid_result → w.freopen_ok Stream.stdin = true →
        w.freopen_ok Stream.stdout = false →
      (mosquitto__daemonise Platform.posix w p).1 = Control.exited 1 ∧
      (mosquitto__daemonise Platform.posix w p).2.events = p.events ++
        [Event.fork, Event.setsid, Event.freopen "/dev/null" "r" Stream.stdin,
          Event.freopen "/dev/null" "w" Stream.stdout,
          Event.printf ("Error whilst daemonising (stdout): " ++ w.strerror_errno ++ "\n"),
          Event.exit 1]) ∧
    (w.fork_result = 0 → 0 ≤ w.setsid_result → w.freopen_ok Stream.stdin = true →
        w.freopen_ok Stream.stdout = true → w.freopen_ok Stream.stderr = false →
      (mosquitto__daemonise Platform.posix w p).1 = Control.exited 1 ∧
      (mosquitto__daemonise Platform.posix w p).2.events = p.events ++
        [Event.fork, Event.setsid, Event.freopen "/dev/null" "r" Stream.stdin,
          Event.freopen "/dev/null" "w" Stream.stdout,
          Event.freopen "/dev/null" "w" Stream.stderr,
          Event.printf ("Error whilst daemonising (stderr): " ++ w.strerror_errno ++ "\n"),
          Event.exit 1]) ∧
    (w.fork_result = 0 → 0 ≤ w.setsid_result → w.freopen_ok Stream.stdin = true →
        w.freopen_ok Stream.stdout = true → w.freopen_ok Stream.stderr = true →
      (mosquitto__daemonise Platform.posix w p).1 = Control.returned ∧
      (mosquitto__daemonise Platform.posix w p).2.events = p.events ++
        [Event.fork, Event.setsid, Event.freopen "/dev/null" "r" Stream.stdin,
          Event.freopen "/dev/null" "w" Stream.stdout,
          Event.freopen "/dev/null" "w" Stream.stderr]) ∧
    ((mosquitto__daemonise Platform.posix w p).1 = Control.exited 0 ↔
      0 < w.fork_result) ∧
    (∀ status : Int, (mosquitto__daemonise Platform.posix w p).1 = Control.exited status →
      status = 0 ∨ status = 1) := by
  rw [daemonise_posix_control, daemonise_posix_events]
  refine ⟨?_, ?_, ?_, ?_, ?_, ?_, ?_, ?_⟩
  · intro h
    simp [h]
  · intro h0 h
    simp [h0, h]
  · intro h0 h hs
    have h1 : ¬ w.setsid_result < 0 := by omega
    simp [h0, h1, hs]
  · intro h0 h hs ho
    have h1 : ¬ w.setsid_result < 0 := by omega
    simp [h0, h1, hs, ho]
  · intro h0 h hs ho he
    have h1 : ¬ w.setsid_result < 0 := by omega
    simp [h0, h1, hs, ho, he]
  · intro h0 h hs ho he
    have h1 : ¬ w.setsid_result < 0 := by omega
    simp [h0, h1, hs, ho, he]
  · split_ifs <;> simp_all
    omega
  · intro status
    split_ifs <;> simp_all

/-- The theorem for C9 in a child whose `setsid` fails. -/
theorem daemonise_failures_exit_one_witness :
    world_setsid_fails.fork_result = 0 ∧ world_setsid_fails.setsid_result < 0 ∧
      (mosquitto__daemonise Platform.posix world_setsid_fails (Process.start 0 0 [0])).1
        = Control.exited 1 ∧
      (mosquitto__daemonise Platform.posix world_setsid_fails
          (Process.start 0 0 [0])).2.events =
        [Event.fork, Event.setsid,
          Event.printf ("Error in setsid: " ++ world_setsid_fails.strerror_errno ++ "\n"),
          Event.exit 1] :=
  ⟨rfl, by decide,
    (daemonise_failures_exit_one world_setsid_fails (Process.start 0 0 [0])).2.1 rfl
      (by decide)⟩

/-! ## Entry point -/

/-- C10: for every `argc` and `argv`, in every world and process state,
`mosquitto_main` returns `MOSQ_ERR_SUCCESS`; the only function of the file entered
is `mosquitto_main` itself, so `mosquitto__daemonise`, `listeners__start`,
`drop_privileges`, `pid__write` and `signal__setup` are not called; no library or
system call is executed; `run`, `flag_reload` and the listening socket table are
as on entry, and from process start `listensock_count` is 0 on return. -/
theorem mosquitto_main_does_nothing (w : World) (argc : Int) (argv : List String)
    (p : Process) (u g : Nat) (gs : List Nat) :
    (mosquitto_main w argc argv p).1 = MOSQ_ERR_SUCCESS ∧
      (mosquitto_main w argc argv p).2.calls = p.calls ++ [Fn.mosquitto_main] ∧
      Fn.mosquitto__daemonise ∉ (mosquitto_main w argc argv p).2.calls.drop p.calls.length ∧
      Fn.listeners__start ∉ (mosquitto_main w argc argv p).2.calls.drop p.calls.length ∧
      Fn.drop_privileges ∉ (mosquitto_main w argc argv p).2.calls.drop p.calls.length ∧
      Fn.pid__write ∉ (mosquitto_main w argc argv p).2.calls.drop p.calls.length ∧
      Fn.signal__setup ∉ (mosquitto_main w argc argv p).2.calls.drop p.calls.length ∧
      (mosquitto_main w argc argv p).2.events = p.events ∧
      (mosquitto_main w argc argv p).2.run = p.run ∧
      (mosquitto_main w argc argv p).2.flag_reload = p.flag_reload ∧
      (mosquitto_main w argc argv p).2.listensock = p.listensock ∧
      (mosquitto_main w argc argv p).2.listensock_count = p.listensock_count ∧
      (mosquitto_main w argc argv p).2.listensock_index = p.listensock_index ∧
      (mosquitto_main w argc argv (Process.start u g gs)).2.listensock_count = 0 := by
  have hd : (mosquitto_main w argc argv p).2.calls.drop p.calls.length
      = [Fn.mosquitto_main] := by
    show (p.calls ++ [Fn.mosquitto_main]).drop p.calls.length = [Fn.mosquitto_main]
    simp
  rw [hd]
  refine ⟨rfl, rfl, by decide, by decide, by decide, by decide, by decide,
    rfl, rfl, rfl, rfl, rfl, rfl, rfl⟩

end Mosquitto
